import Mathlib

/-!
Shallow embedding of `src/bot.py`, the per-user conversation state machine of
a Telegram relay bot.  The session state is the `context.user_data` dict,
which holds the optional keys `"lang"` and `"category_id"` (both arbitrary
strings at runtime: the `lang:` callback stores whatever string follows the
colon).  The three entry points — the `/start` command handler, the callback
handler `on_cb`, and the free-text handler `on_message` — are embedded as
pure functions from a session to a new session plus a list of outbound
actions.  Python `KeyError`s escaping a handler are modelled by an `err`
flag (state mutations performed before the raise persist, as dict mutations
do); the `try/except` inside `on_cb` catches everything, so `on_cb` itself
never sets `err`.  Delivery failures of the sends that the source wraps in
`try/except` (the admin header, the admin copy, the auto-reply ack) are
modelled by a `DeliveryEnv` of success flags; a failed send delivers
nothing and the source logs the exception.
-/

namespace PastorBot

/-- A session: the `user_data` dict of one user, keys `lang` and
`category_id` (bot.py keeps both as plain strings; `None`/absent is
modelled by `none`). -/
structure Session where
  lang : Option String
  category_id : Option String
deriving Repr, DecidableEq

/-- Destination of an outbound send: the end user's chat or the
administrator destination (`ADMIN_CHAT_ID`). -/
inductive Dest where
  | user
  | admin
deriving Repr, DecidableEq

/-- The keyboard attached to a sent message: none, the language picker
(`lang_inline_keyboard`, bot.py lines 79-85), or the category menu for a
language (`menu_inline_keyboard`, lines 87-93). -/
inductive Keyboard where
  | noKb
  | langKb
  | menuKb (lang : String)
deriving Repr, DecidableEq

/-- An observable outbound action of a handler. -/
inductive Action where
  | answerCb
  | editMarkup
  | sendText (dest : Dest) (text : String) (kb : Keyboard)
  | copyMessage (dest : Dest)
  | logError
deriving Repr, DecidableEq

/-- Result of running one handler: the new session, the actions performed
in order, and whether an uncaught exception escaped the handler. -/
structure HResult where
  s : Session
  actions : List Action
  err : Bool
deriving Repr, DecidableEq

/-- Startup configuration: the `AUTO_REPLY` toggle (bot.py line 21).  The
admin destination id is validated at startup (`main`, lines 219-221) and is
abstracted as `Dest.admin`. -/
structure Config where
  auto_reply : Bool
deriving Repr, DecidableEq

/-- Outcome flags for the delivery-gateway calls that `on_message` wraps in
`try/except`: the header send and the copy to the admin (lines 191-195) and
the auto-reply ack (lines 198-201). -/
structure DeliveryEnv where
  headerOk : Bool
  copyOk : Bool
  ackOk : Bool
deriving Repr, DecidableEq

/-- Per-message context: sender display name and id, origin chat id
(bot.py lines 186-189). -/
structure MsgCtx where
  fullName : String
  userId : Int
  chatId : Int
deriving Repr, DecidableEq

/-- One immutable catalog entry of `CATEGORY_DEFS` (bot.py lines 26-32). -/
structure CategoryDef where
  id : String
  ru : String
  en : String
  uk : String
deriving Repr, DecidableEq

/-- `CATEGORY_DEFS` (bot.py lines 26-32), verbatim. -/
def CATEGORY_DEFS : List CategoryDef :=
  [⟨"idea", "💡 Есть идея", "💡 I have an idea", "💡 Є ідея"⟩,
   ⟨"volunteer", "🤝 Служение и волонтёрство", "🤝 Ministry & volunteering", "🤝 Служіння та волонтерство"⟩,
   ⟨"visit", "🏠 Нуждаюсь в посещении", "🏠 I need a visit", "🏠 Потребую відвідування"⟩,
   ⟨"prayer", "🙏 Личная молитва и поддержка", "🙏 Personal prayer & support", "🙏 Особиста молитва та підтримка"⟩,
   ⟨"pastor", "📖 Встреча с пастором", "📖 Meet the pastor", "📖 Зустріч з пастором"⟩]

/-- `LABEL_BY_ID[lang]` (bot.py lines 35-39): the ordered `(id, label)`
items of the per-language dict; `none` models the `KeyError` raised by the
outer dict for a language outside `ru`/`en`/`uk`. -/
def LABEL_BY_ID_items (l : String) : Option (List (String × String)) :=
  if l = "ru" then some (CATEGORY_DEFS.map fun c => (c.id, c.ru))
  else if l = "en" then some (CATEGORY_DEFS.map fun c => (c.id, c.en))
  else if l = "uk" then some (CATEGORY_DEFS.map fun c => (c.id, c.uk))
  else none

/-- `PROMPTS` (bot.py lines 41-45) as a partial map; `none` models a
`KeyError`. -/
def PROMPTS (l : String) : Option String :=
  if l = "ru" then some "Выберите категорию:"
  else if l = "en" then some "Choose a category:"
  else if l = "uk" then some "Оберіть категорію:"
  else none

/-- `ACK_TEXT` (bot.py lines 50-54) as a partial map. -/
def ACK_TEXT (l : String) : Option String :=
  if l = "ru" then some "✅ Спасибо! Мы свяжемся с вами."
  else if l = "en" then some "✅ Thank you! We will get back to you."
  else if l = "uk" then some "✅ Дякуємо! Ми зв\x27яжемося з вами."
  else none

/-- `GOODBYE_TEXT` (bot.py lines 56-60) as a partial map. -/
def GOODBYE_TEXT (l : String) : Option String :=
  if l = "ru" then some "✅ Спасибо за общение! Чтобы вернуться, нажмите /start"
  else if l = "en" then some "✅ Thank you for chatting! To return, just type /start"
  else if l = "uk" then some "✅ Дякуємо за спілкування! Щоб повернутися, натисніть /start"
  else none

/-- `TRILINGUAL_GREETING` (bot.py lines 62-69). -/
def TRILINGUAL_GREETING : String :=
  "<b>Привет!</b> Пастор Александр Ханчевский рад с тобой пообщаться.\n" ++
  "Выбери удобный для тебя язык общения из меню ниже.\n\n" ++
  "<b>Hello!</b> Pastor Aleksandr Khanchevskii is glad to chat with you.\n" ++
  "Please choose the language you prefer.\n\n" ++
  "<b>Вітаю!</b> Пастор Олександр Ханчевський радий поспілкуватися.\n" ++
  "Оберіть зручну для вас мову спілкування нижче."

/-- The language-picker text sent mid-session, a literal occurring at
bot.py lines 143 and 209. -/
def CHOOSE_LANG_TEXT : String := "Choose language / Выберите язык / Оберіть мову:"

/-- `lang in ("ru", "en", "uk")` (bot.py line 197). -/
def supported (l : String) : Bool := l = "ru" || l = "en" || l = "uk"

/-- Python string truthiness of an optional string: `None` and `""` are
falsy. -/
def strOpt (o : Option String) : Option String :=
  match o with
  | none => none
  | some s => if s = "" then none else some s

/-- Helper for `data.startswith(pre) and data.split(":", 1)[1]` where
`pre` ends in the first colon: returns the remainder after the tag when
`data` starts with `pre`. -/
def stripTagChars : List Char → List Char → Option (List Char)
  | [], rest => some rest
  | _ :: _, [] => none
  | p :: ps, c :: cs => if c = p then stripTagChars ps cs else none

/-- String version of `stripTagChars`. -/
def stripTag (pre data : String) : Option String :=
  (stripTagChars pre.data data.data).map fun cs => ⟨cs⟩

/-- Python `dict.get(key, default)` over ordered items, as used by
`LABEL_BY_ID[lang].get(category_id, category_id)` (bot.py line 183);
`none` means the key is absent and the default applies. -/
def dictGet (key : String) : List (String × String) → Option String
  | [] => none
  | (k, v) :: rest => if key = k then some v else dictGet key rest

/-- First category id whose label equals `text`, in dict order: the loop
of `is_menu_label` (bot.py lines 99-101). -/
def lookupByLabel (text : String) : List (String × String) → Option String
  | [] => none
  | (cid, label) :: rest => if text = label then some cid else lookupByLabel text rest

/-- `is_menu_label` (bot.py lines 95-102).  `Except.error` models the
`KeyError` raised by `LABEL_BY_ID[lang]` for a truthy unsupported language
code. -/
def is_menu_label (text : String) (lang : Option String) : Except Unit (Option String) :=
  match lang with
  | none => .ok none
  | some l =>
    if l = "" ∨ text = "" then .ok none
    else
      match LABEL_BY_ID_items l with
      | none => .error ()
      | some items => .ok (lookupByLabel text items)

/-- The header composed before a forward (bot.py lines 184-190). -/
def headerText (ctx : MsgCtx) (lang label : String) : String :=
  "📨 Новое обращение\n" ++
  "• Пользователь: " ++ ctx.fullName ++ " (id=" ++ toString ctx.userId ++ ")\n" ++
  "• Язык: " ++ lang ++ "\n" ++
  "• Категория: " ++ label ++ "\n" ++
  "• Из чата: " ++ toString ctx.chatId

/-- The `/start` handler (bot.py lines 109-116): clear the session, send
the trilingual greeting with the language picker. -/
def start (_s : Session) : HResult :=
  ⟨⟨none, none⟩, [.sendText .user TRILINGUAL_GREETING .langKb], false⟩

/-- The callback handler `on_cb` (bot.py lines 118-167).  The branches are
checked in source order: `lang:`, `change_lang`, `finish`, `cat:`; an
unmatched payload falls through with no state change and no action.  In the
`lang:` branch the dict is mutated before `PROMPTS[lang]` is read, so an
unsupported code still updates the session; the raised `KeyError` is caught
by the handler's own `except`, which logs and answers the query again. -/
def on_cb (data : String) (s : Session) : HResult :=
  match stripTag "lang:" data with
  | some code =>
    let s1 : Session := ⟨some code, none⟩
    match PROMPTS code with
    | some p => ⟨s1, [.answerCb, .sendText .user p (.menuKb code)], false⟩
    | none => ⟨s1, [.answerCb, .logError, .answerCb], false⟩
  | none =>
    if data = "change_lang" then
      ⟨⟨s.lang, none⟩, [.answerCb, .editMarkup, .sendText .user CHOOSE_LANG_TEXT .langKb], false⟩
    else if data = "finish" then
      ⟨⟨none, none⟩,
       [.answerCb, .editMarkup,
        .sendText .user ((GOODBYE_TEXT (s.lang.getD "ru")).getD ((GOODBYE_TEXT "en").getD "")) .noKb],
       false⟩
    else
      match stripTag "cat:" data with
      | some cid => ⟨⟨s.lang, some cid⟩, [.answerCb], false⟩
      | none => ⟨s, [], false⟩

/-- The free-text handler `on_message` (bot.py lines 169-213), with
`AUTO_REPLY` from `cfg` and gateway outcomes from `env`.  A `FreeText`
equal to a menu label is reinterpreted as a category choice; with both
`category_id` and `lang` truthy the message is forwarded to the admin
(header then copy, both in one `try`), the ack is sent when enabled, the
category is popped and the menu is shown; otherwise the language picker or
the category menu is shown. -/
def on_message (cfg : Config) (env : DeliveryEnv) (ctx : MsgCtx) (text : String)
    (s : Session) : HResult :=
  match is_menu_label text s.lang with
  | .error _ => ⟨s, [], true⟩
  | .ok typed =>
    match strOpt typed with
    | some cid => ⟨⟨s.lang, some cid⟩, [], false⟩
    | none =>
      match strOpt s.category_id, strOpt s.lang with
      | some cid, some l =>
        match LABEL_BY_ID_items l with
        | none => ⟨s, [], true⟩
        | some items =>
          let label := (dictGet cid items).getD cid
          let fwd : List Action :=
            if env.headerOk then
              if env.copyOk then
                [.sendText .admin (headerText ctx l label) .noKb, .copyMessage .admin]
              else
                [.sendText .admin (headerText ctx l label) .noKb, .logError]
            else [.logError]
          let ack : List Action :=
            if cfg.auto_reply && supported l then
              if env.ackOk then [.sendText .user ((ACK_TEXT l).getD "") .noKb] else []
            else []
          match PROMPTS l with
          | some p => ⟨⟨s.lang, none⟩, fwd ++ ack ++ [.sendText .user p (.menuKb l)], false⟩
          | none => ⟨⟨s.lang, none⟩, fwd ++ ack, true⟩
      | _, _ =>
        match strOpt s.lang with
        | none => ⟨s, [.sendText .user CHOOSE_LANG_TEXT .langKb], false⟩
        | some l =>
          match PROMPTS l with
          | some p => ⟨s, [.sendText .user p (.menuKb l)], false⟩
          | none => ⟨s, [], true⟩

/-- A normalized inbound event, dispatched as `main` registers the
handlers (bot.py lines 226-228). -/
inductive InEvent where
  | startCmd
  | callback (data : String)
  | message (env : DeliveryEnv) (ctx : MsgCtx) (text : String)

/-- One dispatch step of the application over a session. -/
def step (cfg : Config) (e : InEvent) (s : Session) : HResult :=
  match e with
  | .startCmd => start s
  | .callback d => on_cb d s
  | .message env ctx t => on_message cfg env ctx t s

/-- The spec's data-model invariant: `category` set implies `language`
set. -/
def langCatInvariant (s : Session) : Prop :=
  s.category_id.isSome → s.lang.isSome

instance (s : Session) : Decidable (langCatInvariant s) := by
  unfold langCatInvariant
  infer_instance

/-- True on actions directed at the administrator destination. -/
def isAdminAction : Action → Bool
  | .sendText .admin _ _ => true
  | .copyMessage .admin => true
  | _ => false

/-! ## Helper lemmas -/

lemma strOpt_some_of_ne {s : String} (h : s ≠ "") : strOpt (some s) = some s := by
  simp [strOpt, h]

lemma lookupByLabel_mem {text cid : String} :
    ∀ {items : List (String × String)}, lookupByLabel text items = some cid →
      cid ∈ items.map Prod.fst := by
  intro items
  induction items with
  | nil => intro h; simp [lookupByLabel] at h
  | cons hd tl ih =>
    intro h
    obtain ⟨k, v⟩ := hd
    by_cases hv : text = v
    · simp [lookupByLabel, hv] at h
      simp [h]
    · simp only [lookupByLabel, if_neg hv] at h
      simp [ih h]

lemma labelItems_fst {l : String} {items : List (String × String)}
    (h : LABEL_BY_ID_items l = some items) :
    items.map Prod.fst = ["idea", "volunteer", "visit", "prayer", "pastor"] := by
  by_cases h1 : l = "ru"
  · simp [LABEL_BY_ID_items, h1] at h
    subst h; rfl
  · by_cases h2 : l = "en"
    · simp [LABEL_BY_ID_items, h1, h2] at h
      subst h; rfl
    · by_cases h3 : l = "uk"
      · simp [LABEL_BY_ID_items, h1, h2, h3] at h
        subst h; rfl
      · simp [LABEL_BY_ID_items, h1, h2, h3] at h

lemma labelItems_empty_lang {items : List (String × String)}
    (h : LABEL_BY_ID_items "" = some items) : False := by
  simp [LABEL_BY_ID_items] at h

lemma is_menu_label_ok_ne {text l cid : String}
    (hm : is_menu_label text (some l) = .ok (some cid)) : cid ≠ "" := by
  have h : (if l = "" ∨ text = "" then (Except.ok none : Except Unit (Option String))
      else match LABEL_BY_ID_items l with
        | none => .error ()
        | some items => .ok (lookupByLabel text items)) = .ok (some cid) := hm
  rcases Decidable.em (l = "" ∨ text = "") with h1 | h1
  · rw [if_pos h1] at h
    simp at h
  · rw [if_neg h1] at h
    cases hi : LABEL_BY_ID_items l with
    | none => rw [hi] at h; simp at h
    | some items =>
      rw [hi] at h
      simp at h
      have hmem := lookupByLabel_mem h
      rw [labelItems_fst hi] at hmem
      intro hx
      subst hx
      revert hmem
      decide

lemma on_cb_no_admin (d : String) (s : Session) :
    ((on_cb d s).actions.all fun a => !isAdminAction a) = true := by
  unfold on_cb
  cases h1 : stripTag "lang:" d with
  | some code => cases h2 : PROMPTS code <;> simp [h2, isAdminAction]
  | none =>
    by_cases h2 : d = "change_lang"
    · simp [h2, isAdminAction]
    · by_cases h3 : d = "finish"
      · simp [h2, h3, isAdminAction]
      · cases h4 : stripTag "cat:" d <;> simp [h2, h3, isAdminAction]

/-- Evaluation of `on_cb` on the `finish` payload: the session is cleared
and the farewell is looked up at the prior language with the `ru` default
and the `en` fallback (bot.py lines 146-154). -/
lemma on_cb_finish_eval (s : Session) :
    on_cb "finish" s =
      ⟨⟨none, none⟩,
       [.answerCb, .editMarkup,
        .sendText .user ((GOODBYE_TEXT (s.lang.getD "ru")).getD ((GOODBYE_TEXT "en").getD "")) .noKb],
       false⟩ := rfl

/-- Evaluation of the forward branch of `on_message` (bot.py lines
182-205) for a session in `CategorySet` and a non-label text, with the
gateway outcomes left symbolic. -/
lemma on_message_forward_eval (cfg : Config) (env : DeliveryEnv) (ctx : MsgCtx)
    (text : String) (s : Session) (l c p : String) (items : List (String × String))
    (hl : s.lang = some l) (hc : s.category_id = some c) (hcne : c ≠ "")
    (hi : LABEL_BY_ID_items l = some items) (hp : PROMPTS l = some p)
    (hm : is_menu_label text (some l) = .ok none) :
    on_message cfg env ctx text s =
      ⟨⟨some l, none⟩,
       (if env.headerOk then
          if env.copyOk then
            [.sendText .admin (headerText ctx l ((dictGet c items).getD c)) .noKb,
             .copyMessage .admin]
          else
            [.sendText .admin (headerText ctx l ((dictGet c items).getD c)) .noKb,
             .logError]
        else [.logError]) ++
       (if cfg.auto_reply && supported l then
          if env.ackOk then [.sendText .user ((ACK_TEXT l).getD "") .noKb] else []
        else []) ++
       [.sendText .user p (.menuKb l)],
       false⟩ := by
  have hlne : l ≠ "" := by
    intro hx
    subst hx
    exact labelItems_empty_lang hi
  obtain ⟨slang, scat⟩ := s
  simp only at hl hc
  subst hl
  subst hc
  simp [on_message, hm, hi, hp, strOpt, hcne, hlne]

lemma on_message_no_admin_of_falsy_lang (cfg : Config) (env : DeliveryEnv) (ctx : MsgCtx)
    (text : String) (s : Session) (h : s.lang = none ∨ s.lang = some "") :
    ((on_message cfg env ctx text s).actions.all fun a => !isAdminAction a) = true := by
  obtain ⟨slang, scat⟩ := s
  simp only at h
  rcases h with h | h <;> subst h <;> cases scat with
  | none => simp [on_message, is_menu_label, strOpt, isAdminAction]
  | some str =>
    by_cases hstr : str = "" <;>
      simp [on_message, is_menu_label, strOpt, hstr, isAdminAction]

/-! ## Claims -/

/-- Claim C1, counterexample: a `cat:idea` button callback arriving while
no language is set produces a session with `category` set and `language`
unset, violating the invariant `category set ⇒ language set`. -/
theorem c1_counterexample :
    ¬ langCatInvariant (step ⟨true⟩ (.callback "cat:idea") ⟨none, none⟩).s := by
  decide

/-- Claim C1, amended: although a `cat:<id>` callback can set the category
while the language is unset, the Controller never forwards a message for a
session lacking a (truthy) language: no handler emits an action directed
at the administrator destination from such a session. -/
theorem c1_no_forward_without_language (cfg : Config) (e : InEvent) (s : Session)
    (h : s.lang = none ∨ s.lang = some "") :
    ((step cfg e s).actions.all fun a => !isAdminAction a) = true := by
  cases e with
  | startCmd => simp [step, start, isAdminAction]
  | callback d => exact on_cb_no_admin d s
  | message env ctx t => exact on_message_no_admin_of_falsy_lang cfg env ctx t s h

/-- Claim C1, witness: concrete run of the amended theorem on a session
with a category but no language receiving a free-text message. -/
theorem c1_no_forward_without_language_w :
    ((step ⟨true⟩ (.message ⟨true, true, true⟩ ⟨"Alice", 7, 99⟩ "hello")
        ⟨none, some "idea"⟩).actions.all fun a => !isAdminAction a) = true :=
  c1_no_forward_without_language ⟨true⟩ _ _ (Or.inl rfl)

/-- Claim C2: from `CategorySet` (language and category set), a free text
that is not a category label is forwarded to the admin as exactly one
header (user name, id, language, category label, origin chat id)
immediately followed by exactly one copy, the category is cleared (back to
`LanguageSet`), and exactly one acknowledgement in the session language is
sent iff auto-reply is enabled; the category prompt is then shown. -/
theorem c2_forward_delivers_once (cfg : Config) (ctx : MsgCtx) (text : String)
    (s : Session) (l c p a : String) (items : List (String × String))
    (hl : s.lang = some l) (hc : s.category_id = some c) (hcne : c ≠ "")
    (hi : LABEL_BY_ID_items l = some items) (hsup : supported l = true)
    (hp : PROMPTS l = some p) (ha : ACK_TEXT l = some a)
    (hm : is_menu_label text (some l) = .ok none) :
    on_message cfg ⟨true, true, true⟩ ctx text s =
      ⟨⟨some l, none⟩,
       [.sendText .admin (headerText ctx l ((dictGet c items).getD c)) .noKb,
        .copyMessage .admin] ++
       (if cfg.auto_reply then [.sendText .user a .noKb] else []) ++
       [.sendText .user p (.menuKb l)],
       false⟩ := by
  rw [on_message_forward_eval cfg ⟨true, true, true⟩ ctx text s l c p items hl hc hcne hi hp hm]
  simp [hsup, ha]

/-- Claim C2, witness: concrete `CategorySet{en, idea}` session receiving
`"hello"` with auto-reply on. -/
theorem c2_forward_delivers_once_w :
    on_message ⟨true⟩ ⟨true, true, true⟩ ⟨"Alice", 7, 99⟩ "hello" ⟨some "en", some "idea"⟩ =
      ⟨⟨some "en", none⟩,
       [.sendText .admin (headerText ⟨"Alice", 7, 99⟩ "en" "💡 I have an idea") .noKb,
        .copyMessage .admin,
        .sendText .user "✅ Thank you! We will get back to you." .noKb,
        .sendText .user "Choose a category:" (.menuKb "en")],
       false⟩ := by
  have h := c2_forward_delivers_once ⟨true⟩ ⟨"Alice", 7, 99⟩ "hello" ⟨some "en", some "idea"⟩
    "en" "idea" "Choose a category:" "✅ Thank you! We will get back to you."
    (CATEGORY_DEFS.map fun c : CategoryDef => (c.id, c.en))
    rfl rfl (by decide) rfl rfl rfl rfl rfl
  rw [h]
  rfl

/-- Claim C3, counterexample: `change_lang` from `CategorySet{en, idea}`
yields a session that still has the language set, so the new state is
`LanguageSet`, not `NoLanguage`. -/
theorem c3_counterexample :
    (on_cb "change_lang" ⟨some "en", some "idea"⟩).s = ⟨some "en", none⟩ ∧
    (on_cb "change_lang" ⟨some "en", some "idea"⟩).s.lang ≠ none :=
  ⟨rfl, by decide⟩

/-- Claim C3, amended: `change_lang` from any state clears the category
and retains the language (so the new state is `LanguageSet` whenever a
language was set, `NoLanguage` only if none was), and shows the language
picker without repeating the greeting. -/
theorem c3_change_lang_keeps_language (s : Session) :
    on_cb "change_lang" s =
      ⟨⟨s.lang, none⟩,
       [.answerCb, .editMarkup, .sendText .user CHOOSE_LANG_TEXT .langKb],
       false⟩ ∧
    CHOOSE_LANG_TEXT ≠ TRILINGUAL_GREETING :=
  ⟨rfl, by decide⟩

/-- Claim C4, counterexample: the malformed callback `lang:xx` (a `lang:`
payload with an unsupported code) is not ignored — it changes the session
state, storing the raw code as the language. -/
theorem c4_counterexample :
    (on_cb "lang:xx" ⟨none, none⟩).s = ⟨some "xx", none⟩ ∧
    (on_cb "lang:xx" ⟨none, none⟩).s ≠ (⟨none, none⟩ : Session) :=
  ⟨rfl, by decide⟩

/-- Claim C4, amended: a callback whose payload matches no known kind is
ignored (state unchanged, no action at all); but a `lang:` payload with an
unsupported code is not ignored: the language is set to the raw code and
the category cleared before the menu reply fails. -/
theorem c4_unknown_payload_ignored (data : String) (s : Session)
    (h1 : stripTag "lang:" data = none) (h2 : data ≠ "change_lang")
    (h3 : data ≠ "finish") (h4 : stripTag "cat:" data = none) :
    on_cb data s = ⟨s, [], false⟩ ∧
    (on_cb "lang:xx" ⟨none, none⟩).s = ⟨some "xx", none⟩ := by
  refine ⟨?_, rfl⟩
  simp [on_cb, h1, h2, h3, h4]

/-- Claim C4, witness: the unrecognized payload `"zzz"` leaves a concrete
session untouched and performs nothing. -/
theorem c4_unknown_payload_ignored_w :
    on_cb "zzz" ⟨some "en", some "idea"⟩ = ⟨⟨some "en", some "idea"⟩, [], false⟩ ∧
    (on_cb "lang:xx" ⟨none, none⟩).s = ⟨some "xx", none⟩ :=
  c4_unknown_payload_ignored "zzz" ⟨some "en", some "idea"⟩ rfl (by decide) (by decide) rfl

/-- Claim C5: with a language set, a free text equal to one of that
language's category labels is reinterpreted as the matching category
selection — silently, with no forward, whatever the current category; and
a non-matching free text with no category set leaves the category unset
and redisplays the category prompt. -/
theorem c5_typed_label_selects_category (cfg : Config) (env : DeliveryEnv) (ctx : MsgCtx)
    (s : Session) (l : String) (hl : s.lang = some l) :
    (∀ text cid, is_menu_label text (some l) = .ok (some cid) →
        on_message cfg env ctx text s = ⟨⟨some l, some cid⟩, [], false⟩) ∧
    (∀ text p, s.category_id = none → PROMPTS l = some p →
        is_menu_label text (some l) = .ok none →
        on_message cfg env ctx text s =
          ⟨⟨some l, none⟩, [.sendText .user p (.menuKb l)], false⟩) := by
  obtain ⟨slang, scat⟩ := s
  simp only at hl
  subst hl
  constructor
  · intro text cid hm
    have hcid : cid ≠ "" := is_menu_label_ok_ne hm
    simp [on_message, hm, strOpt, hcid]
  · intro text p hcat hp hm
    simp only at hcat
    subst hcat
    have hlne : l ≠ "" := by
      intro hx
      subst hx
      simp [PROMPTS] at hp
    simp [on_message, hm, strOpt, hlne, hp]

/-- Claim C5, witness: typing the English "visit" label selects category
`visit` silently; typing `"hello"` in `LanguageSet{en}` just redisplays
the category prompt. -/
theorem c5_typed_label_selects_category_w :
    on_message ⟨true⟩ ⟨true, true, true⟩ ⟨"Alice", 7, 99⟩ "🏠 I need a visit"
        ⟨some "en", some "prayer"⟩ =
      ⟨⟨some "en", some "visit"⟩, [], false⟩ ∧
    on_message ⟨true⟩ ⟨true, true, true⟩ ⟨"Alice", 7, 99⟩ "hello" ⟨some "en", none⟩ =
      ⟨⟨some "en", none⟩, [.sendText .user "Choose a category:" (.menuKb "en")], false⟩ :=
  ⟨(c5_typed_label_selects_category ⟨true⟩ ⟨true, true, true⟩ ⟨"Alice", 7, 99⟩
      ⟨some "en", some "prayer"⟩ "en" rfl).1 "🏠 I need a visit" "visit" rfl,
   (c5_typed_label_selects_category ⟨true⟩ ⟨true, true, true⟩ ⟨"Alice", 7, 99⟩
      ⟨some "en", none⟩ "en" rfl).2 "hello" "Choose a category:" rfl rfl rfl⟩

/-- Claim C6: if the header send or the admin copy fails, the failure is
logged, the session still advances exactly as on success (category
cleared), the copy is never attempted more than once, and the user is
still returned to the category prompt. -/
theorem c6_forward_failure_still_advances (cfg : Config) (env : DeliveryEnv) (ctx : MsgCtx)
    (text : String) (s : Session) (l c p : String) (items : List (String × String))
    (hl : s.lang = some l) (hc : s.category_id = some c) (hcne : c ≠ "")
    (hi : LABEL_BY_ID_items l = some items) (hp : PROMPTS l = some p)
    (hm : is_menu_label text (some l) = .ok none)
    (hfail : env.headerOk = false ∨ env.copyOk = false) :
    (on_message cfg env ctx text s).s = ⟨some l, none⟩ ∧
    (on_message cfg env ctx text s).s = (on_message cfg ⟨true, true, true⟩ ctx text s).s ∧
    Action.logError ∈ (on_message cfg env ctx text s).actions ∧
    ((on_message cfg env ctx text s).actions.count (Action.copyMessage .admin)) ≤ 1 ∧
    (∃ pre, (on_message cfg env ctx text s).actions =
      pre ++ [Action.sendText .user p (.menuKb l)]) := by
  rw [on_message_forward_eval cfg env ctx text s l c p items hl hc hcne hi hp hm,
    on_message_forward_eval cfg ⟨true, true, true⟩ ctx text s l c p items hl hc hcne hi hp hm]
  obtain ⟨ho, co, ao⟩ := env
  simp only at hfail
  refine ⟨rfl, rfl, ?_, ?_, ⟨_, rfl⟩⟩
  · rcases hfail with h | h <;> subst h
    · simp
    · cases ho <;> simp
  · cases ho <;> cases co <;> cases ao <;>
      by_cases hg : (cfg.auto_reply && supported l) = true <;>
      simp [hg, List.count_append, List.count_cons]

/-- Claim C6, witness: concrete failing delivery (header send fails) from
`CategorySet{en, idea}` on text `"hello"`. -/
theorem c6_forward_failure_still_advances_w :
    (on_message ⟨true⟩ ⟨false, false, true⟩ ⟨"Alice", 7, 99⟩ "hello"
        ⟨some "en", some "idea"⟩).s = ⟨some "en", none⟩ ∧
    (on_message ⟨true⟩ ⟨false, false, true⟩ ⟨"Alice", 7, 99⟩ "hello"
        ⟨some "en", some "idea"⟩).s =
      (on_message ⟨true⟩ ⟨true, true, true⟩ ⟨"Alice", 7, 99⟩ "hello"
        ⟨some "en", some "idea"⟩).s ∧
    Action.logError ∈ (on_message ⟨true⟩ ⟨false, false, true⟩ ⟨"Alice", 7, 99⟩ "hello"
        ⟨some "en", some "idea"⟩).actions ∧
    ((on_message ⟨true⟩ ⟨false, false, true⟩ ⟨"Alice", 7, 99⟩ "hello"
        ⟨some "en", some "idea"⟩).actions.count (Action.copyMessage .admin)) ≤ 1 ∧
    (∃ pre, (on_message ⟨true⟩ ⟨false, false, true⟩ ⟨"Alice", 7, 99⟩ "hello"
        ⟨some "en", some "idea"⟩).actions =
      pre ++ [Action.sendText .user "Choose a category:" (.menuKb "en")]) :=
  c6_forward_failure_still_advances ⟨true⟩ ⟨false, false, true⟩ ⟨"Alice", 7, 99⟩ "hello"
    ⟨some "en", some "idea"⟩ "en" "idea" "Choose a category:" _
    rfl rfl (by decide) rfl rfl rfl (Or.inl rfl)

/-- Claim C7: `finish` clears the session entirely (both fields unset) and
sends the farewell in the language that was set immediately before the
clear, defaulting to the `ru` farewell when no language was set. -/
theorem c7_finish_clears_and_says_farewell (s : Session) :
    (s.lang = none →
      on_cb "finish" s =
        ⟨⟨none, none⟩,
         [.answerCb, .editMarkup,
          .sendText .user "✅ Спасибо за общение! Чтобы вернуться, нажмите /start" .noKb],
         false⟩) ∧
    (∀ l g, s.lang = some l → GOODBYE_TEXT l = some g →
      on_cb "finish" s =
        ⟨⟨none, none⟩, [.answerCb, .editMarkup, .sendText .user g .noKb], false⟩) := by
  constructor
  · intro h
    rw [on_cb_finish_eval, h]
    rfl
  · intro l g hl hg
    rw [on_cb_finish_eval, hl]
    simp [hg]

/-- Claim C7, witness: `finish` from `CategorySet{uk, prayer}` clears both
fields and says the Ukrainian farewell. -/
theorem c7_finish_clears_and_says_farewell_w :
    on_cb "finish" ⟨some "uk", some "prayer"⟩ =
      ⟨⟨none, none⟩,
       [.answerCb, .editMarkup,
        .sendText .user "✅ Дякуємо за спілкування! Щоб повернутися, натисніть /start" .noKb],
       false⟩ :=
  (c7_finish_clears_and_says_farewell ⟨some "uk", some "prayer"⟩).2 "uk" _ rfl rfl

/-- Claim C8: `lang:en` is idempotent — from any prior state, one or two
applications leave the session in `LanguageSet{en}` with the category
unset, and the (second) application performs no admin-directed action. -/
theorem c8_language_chosen_idempotent (s : Session) :
    (on_cb "lang:en" s).s = ⟨some "en", none⟩ ∧
    on_cb "lang:en" ((on_cb "lang:en" s).s) = on_cb "lang:en" s ∧
    ((on_cb "lang:en" s).actions.all fun a => !isAdminAction a) = true :=
  ⟨rfl, rfl, rfl⟩

/-- Claim C9: `/start` from any prior state clears both fields and sends
the greeting together with the language picker. -/
theorem c9_start_resets_session (s : Session) :
    start s = ⟨⟨none, none⟩, [.sendText .user TRILINGUAL_GREETING .langKb], false⟩ := rfl

/-- Claim C10: the category-label lookup in the forward header is total —
a stored category id absent from the catalog does not raise: the raw id is
used as the label and the forward to the admin still proceeds (header then
copy). -/
theorem c10_unknown_category_label_falls_back (cfg : Config) (ctx : MsgCtx) (text : String)
    (s : Session) (l c p : String) (items : List (String × String))
    (hl : s.lang = some l) (hc : s.category_id = some c) (hcne : c ≠ "")
    (hi : LABEL_BY_ID_items l = some items) (hp : PROMPTS l = some p)
    (hm : is_menu_label text (some l) = .ok none)
    (hmiss : dictGet c items = none) :
    (on_message cfg ⟨true, true, true⟩ ctx text s).err = false ∧
    (on_message cfg ⟨true, true, true⟩ ctx text s).actions.take 2 =
      [.sendText .admin (headerText ctx l c) .noKb, .copyMessage .admin] := by
  rw [on_message_forward_eval cfg ⟨true, true, true⟩ ctx text s l c p items hl hc hcne hi hp hm]
  simp [hmiss]

/-- Claim C10, witness: the forged id `"hacked"` (absent from the catalog)
is used verbatim as the header label and the forward still happens. -/
theorem c10_unknown_category_label_falls_back_w :
    (on_message ⟨true⟩ ⟨true, true, true⟩ ⟨"Alice", 7, 99⟩ "hello"
        ⟨some "en", some "hacked"⟩).err = false ∧
    (on_message ⟨true⟩ ⟨true, true, true⟩ ⟨"Alice", 7, 99⟩ "hello"
        ⟨some "en", some "hacked"⟩).actions.take 2 =
      [.sendText .admin (headerText ⟨"Alice", 7, 99⟩ "en" "hacked") .noKb,
       .copyMessage .admin] :=
  c10_unknown_category_label_falls_back ⟨true⟩ ⟨"Alice", 7, 99⟩ "hello"
    ⟨some "en", some "hacked"⟩ "en" "hacked" "Choose a category:" _
    rfl rfl (by decide) rfl rfl rfl rfl

end PastorBot
